import Mathlib

/-!
Verification development for the fits2js repository: a codec for FITS
(Flexible Image Transport System) files.  The TypeScript sources are embedded
shallowly: JavaScript strings become Lean `String`s, `ArrayBuffer`s become
`List Nat` (one `Nat` per byte, each < 256), JavaScript exceptions become
`Except`/`Option` results, and the mutable `lastIndex` state of the global
(`/g`) regular expressions used by the card codec becomes an explicit
`RegexState` value threaded through the operations that touch those regexes.

IEEE-754 doubles are not shallowly embeddable; where the source manipulates a
JavaScript number only through its decimal rendering (`Number.prototype.toString`)
we carry that rendering as a `String`, and where a float is stored into a
buffer the byte image is produced by an explicitly documented placeholder that
is dead code on every path the theorems exercise.
-/

namespace Fits2JS

/-- Characters treated as whitespace by the JavaScript string trimming
functions.  The source only ever trims ASCII spaces (card images are
printable ASCII), so the usual ASCII whitespace set suffices. -/
def jsWhitespace (c : Char) : Bool :=
  c = ' ' || c = '\t' || c = '\n' || c = '\r'

/-- JavaScript `String.prototype.trimEnd`. -/
def jsTrimEnd (s : String) : String :=
  ⟨(s.data.reverse.dropWhile jsWhitespace).reverse⟩

/-- JavaScript `String.prototype.trimStart`. -/
def jsTrimStart (s : String) : String :=
  ⟨s.data.dropWhile jsWhitespace⟩

/-- JavaScript `String.prototype.trim`. -/
def jsTrim (s : String) : String :=
  jsTrimStart (jsTrimEnd s)

/-- JavaScript `String.prototype.padEnd` with a one-character pad string:
appends copies of `c` until the length reaches `n` (never truncates). -/
def jsPadEnd (s : String) (n : Nat) (c : Char) : String :=
  ⟨s.data ++ List.replicate (n - s.data.length) c⟩

/-- JavaScript `String.prototype.padStart` with a one-character pad string. -/
def jsPadStart (s : String) (n : Nat) (c : Char) : String :=
  ⟨List.replicate (n - s.data.length) c ++ s.data⟩

/-- JavaScript `s.slice(0, n)` for a non-negative `n`. -/
def jsTake (s : String) (n : Nat) : String :=
  ⟨s.data.take n⟩

/-- JavaScript `s.slice(n)` for a non-negative `n`. -/
def jsDrop (s : String) (n : Nat) : String :=
  ⟨s.data.drop n⟩

/-- JavaScript `s.slice(start, stop)` with the full index arithmetic:
negative indices count from the end of the string and both ends are clamped. -/
def jsSlice (s : String) (start stop : Int) : String :=
  let len : Int := s.data.length
  let norm : Int → Nat := fun i => (if i < 0 then max (len + i) 0 else min i len).toNat
  let a := norm start
  let b := norm stop
  ⟨(s.data.take b).drop a⟩

/-- JavaScript `String.prototype.startsWith`. -/
def jsStartsWith (s pre : String) : Bool :=
  pre.data.isPrefixOf s.data

/-- JavaScript `String.prototype.endsWith`. -/
def jsEndsWith (s suf : String) : Bool :=
  suf.data.reverse.isPrefixOf s.data.reverse

/-- JavaScript `String.prototype.toUpperCase`, on the ASCII range the sources
use for keywords. -/
def jsToUpper (s : String) : String :=
  ⟨s.data.map Char.toUpper⟩

/-- Replaces the first occurrence of the character `pat` by `rep`
(JavaScript `s.replace("e", "E")` with a one-character pattern). -/
def jsReplaceFirstChar (s : String) (pat rep : Char) : String :=
  ⟨go s.data⟩
where
  go : List Char → List Char
    | [] => []
    | c :: rest => if c = pat then rep :: rest else c :: go rest

/-- JavaScript `String.prototype.split` with a one-character separator. -/
def jsSplitChar (s : String) (sep : Char) : List String :=
  (go s.data []).map fun l => ⟨l⟩
where
  go : List Char → List Char → List (List Char)
    | [], acc => [acc.reverse]
    | c :: rest, acc =>
      if c = sep then acc.reverse :: go rest [] else go rest (c :: acc)

/-! ## Errors

Each constructor stands for one `throw` site of the TypeScript sources; the
doc comments give the JavaScript error and message thrown there. -/

/-- Exceptions thrown by the card/header/data codec (`src/card.ts`,
`src/header.ts`, `src/data.ts`, `src/fits.ts`). -/
inductive JSError where
  /-- RangeError "HIERARCH keyword ... is too long" (Card.fromValue). -/
  | hierarchTooLong
  /-- TypeError "Invalid keyword ...: must match ..." (Card.fromValue). -/
  | invalidKeyword
  /-- TypeError "END card must have no value or comment" (Card.fromValue). -/
  | endWithValueOrComment
  /-- TypeError "CONTINUE card must have a string value" (Card.fromValue). -/
  | continueNonString
  /-- TypeError "Invalid value ...: must be an ASCII string" (Card.fromValue). -/
  | nonAsciiValue
  /-- TypeError "Invalid comment ...: must be an ASCII string" (Card.fromValue). -/
  | nonAsciiComment
  /-- RangeError "Cannot create a card ... that exceeds 80 characters" (Card.fromValue). -/
  | recordTooLong
  /-- TypeError raised by `comment!.slice` when `comment` is null
  (Card.fromValue comment-trimming branch; unreachable for null comments). -/
  | nullCommentSlice
  /-- TypeError raised in `realToString` by reading `.length` of the
  undefined `exponent` when `split("E")` produced a single part. -/
  | realExponentUndefined
  /-- Error "Failed to parse card image ..." (Card.fromString). -/
  | malformedCard
  /-- Error "Card image must be exactly 80 characters long" (Card.fromString, pad = false). -/
  | wrongImageLength
  /-- TypeError "... CONTINUE card must have a string value" (Card.fromString). -/
  | continueParsedNonString
  /-- TypeError "Cannot retrieve values for ... keyword" (FITSHeader.getValues). -/
  | notRetrievable
  /-- TypeError "Expected ... to be an integer/real/logical/string ..."
  (FITSHeader.getValues type validation); carries the offending keyword. -/
  | typeMismatch (keyword : String)
  /-- TypeError "Cannot set value for ... keyword" (FITSHeader.setValue). -/
  | keywordNotMutable
  /-- TypeError from reading `cards[index][1]` when `cards[index]` is
  undefined (FITSHeader.setValue splice path). -/
  | indexedCardUndefined
  /-- RangeError "Expected N coordinates, but got M" (FITSData.getPoint). -/
  | arityMismatch
  /-- RangeError "NAXIS is 0, no data available" (FITSData.getPoint). -/
  | noData
  /-- RangeError "Coordinates out of bounds: ..." (FITSData.getPoint line 100). -/
  | outOfBounds
  /-- TypeError "64-bit integers are not supported" (FITSData readPoint / fromArray). -/
  | unsupportedBitDepth
  /-- TypeError "Unexpected BITPIX value ..." (FITSData readPoint / fromArray). -/
  | unexpectedBitpix
  /-- RangeError thrown by `DataView.prototype.get/set*` when the accessed
  byte range is outside the view. -/
  | viewOutOfRange
  /-- RangeError "Expected N data points, but got M" (FITSData.fromArray). -/
  | shapeMismatch
  /-- RangeError thrown by the `ArrayBuffer` constructor on a negative length. -/
  | negativeBufferLength
deriving DecidableEq, Repr

/-! ## Card values -/

/-- Value attached to a FITS header card (`FITSCardValue` in `src/card.ts`):
`string | number | [number, number] | boolean | null`.  A JavaScript number
is carried as the string produced by `Number.prototype.toString` — that
rendering is the only way the card codec ever consumes a number. -/
inductive FITSCardValue where
  | str (s : String)
  | num (toStr : String)
  | cplx (re im : String)
  | bool (b : Bool)
  | undef
deriving DecidableEq, Repr

/-- Whether a card value is a string (`typeof value === "string"`). -/
def FITSCardValue.isStr : FITSCardValue → Bool
  | .str _ => true
  | _ => false

/-! ## The stateful global regexes of `src/card.ts` and `src/header.ts`

`keywordRegex`, `hierarchRegex` and `asciiRegex` are declared with the `/g`
flag and used through `RegExp.prototype.test`, so each keeps a mutable
`lastIndex` between calls.  For a pattern anchored by `^` (no `m` flag) the
ECMAScript matching procedure succeeds only when `lastIndex` is `0`; on
success `lastIndex` becomes the match length, on failure it is reset to `0`. -/

/-- The `lastIndex` values of the seven `/g` regexes shared by the card and
header modules. -/
structure RegexState where
  keywordLI : Nat := 0
  hierarchLI : Nat := 0
  asciiLI : Nat := 0
  integerLI : Nat := 0
  realLI : Nat := 0
  logicalLI : Nat := 0
  stringLI : Nat := 0
deriving DecidableEq, Repr

/-- The module-load state: every `lastIndex` is `0`. -/
def RegexState.init : RegexState := {}

/-- `RegExp.prototype.test` for a `/g` regex whose pattern is anchored as
`^...$`: it matches exactly when `lastIndex = 0` and the whole string matches,
and `lastIndex` is updated to the match length (success) or `0` (failure). -/
def gTest (fullmatch : String → Bool) (li : Nat) (s : String) : Bool × Nat :=
  if li = 0 && fullmatch s then (true, s.length) else (false, 0)

/-- Character class `[A-Z0-9_-]`. -/
def isKeywordChar (c : Char) : Bool :=
  ('A' ≤ c && c ≤ 'Z') || ('0' ≤ c && c ≤ '9') || c = '_' || c = '-'

/-- Full match of `keywordRegex` (`/^[A-Z0-9_-]{0,8}$/g`). -/
def matchesKeywordRegex (s : String) : Bool :=
  decide (s.length ≤ 8) && s.data.all isKeywordChar

/-- Printable ASCII, `[\x20-\x7E]`. -/
def isPrintableAscii (c : Char) : Bool :=
  ' ' ≤ c && c ≤ '~'

/-- Full match of `asciiRegex` (`/^[\x20-\x7E]*$/g`). -/
def matchesAsciiRegex (s : String) : Bool :=
  s.data.all isPrintableAscii

/-- Character class `[\x20-\x3C\x3E-\x7E]`: printable ASCII except `=`. -/
def isHierarchBodyChar (c : Char) : Bool :=
  isPrintableAscii c && c ≠ '='

/-- Full match of `hierarchRegex` (`/^HIERARCH {2}[\x20-\x3C\x3E-\x7E]+$/g`). -/
def matchesHierarchRegex (s : String) : Bool :=
  jsStartsWith s "HIERARCH  " &&
    decide (10 < s.length) && (s.data.drop 10).all isHierarchBodyChar

/-! ## `realToString` and `valueToString` (`src/card.ts` lines 55–116) -/

/-- The constant `CARD_LENGTH = 80`. -/
def CARD_LENGTH : Nat := 80

/-- The constant `KEYWORD_LENGTH = 8`. -/
def KEYWORD_LENGTH : Nat := 8

/-- The commentary keywords `["", "HISTORY", "COMMENT", "END"]`. -/
def COMMENTARY_KEYWORDS : List String := ["", "HISTORY", "COMMENT", "END"]

/-- The special keywords: commentary keywords plus `CONTINUE`. -/
def SPECIAL_KEYWORDS : List String := COMMENTARY_KEYWORDS ++ ["CONTINUE"]

/-- `realToString(number)` of `src/card.ts`: formats a real for a card image.
The argument is the string `number.toString()`; the function's first step,
`.replace("e", "E")`, and everything after it are pure string manipulation.
When the rendering is longer than 20 characters and contains no exponent,
`split("E")` yields a single part, `exponent` is `undefined`, and reading
`exponent.length` throws a TypeError. -/
def realToString (numToString : String) : Except JSError String :=
  let output := jsReplaceFirstChar numToString 'e' 'E'
  if output.length > 20 then
    match jsSplitChar output 'E' with
    | mantissa :: exponent :: _ =>
      let mantissa := jsSlice mantissa 0 (20 - (exponent.length : Int))
      .ok (if exponent.length > 0 then mantissa ++ "E" ++ exponent else mantissa)
    | _ => .error .realExponentUndefined
  else .ok output

/-- `value.replaceAll("'", "''")`. -/
def doubleQuotes (s : String) : String :=
  ⟨s.data.flatMap fun c => if c = '\'' then ['\'', '\''] else [c]⟩

/-- `valueToString(value, fixFrom)` of `src/card.ts`: renders a card value,
right- or left-justifying to column 30 when `fixFrom` is given.  Note that
the non-fixed string branch of the source interpolates the value without
doubling embedded quotes, exactly as on line 93. -/
def valueToString (value : FITSCardValue) (fixFrom : Option Nat) :
    Except JSError String :=
  match value with
  | .str s =>
    let raw := "'" ++ doubleQuotes s ++ "'"
    match fixFrom with
    | some f => .ok (jsPadEnd raw (30 - f) ' ')
    | none => .ok ("'" ++ s ++ "'")
  | _ => do
    let raw ← match value with
      | .undef => pure ""
      | .bool b => pure (if b then "T" else "F")
      | .num t => realToString t
      | .cplx re im => do
        let rs ← realToString re
        let is2 ← realToString im
        pure ("(" ++ rs ++ "," ++ is2 ++ ")")
      | .str s => pure s
    match fixFrom with
    | some f => pure (jsPadStart raw (30 - f) ' ')
    | none => pure raw

/-! ## Card and `Card.fromValue` (`src/card.ts` lines 121–240) -/

/-- A FITS header card (`Card` in `src/card.ts`). -/
structure Card where
  /-- The verbatim 80-character keyword record. -/
  image : String
  /-- The keyword of the card. -/
  keyword : String
  /-- The parsed value of the card. -/
  value : FITSCardValue
  /-- The comment (if any) of the card. -/
  comment : Option String
deriving DecidableEq, Repr

/-- The conditional `asciiRegex.test` of `Card.fromValue`: the test (and its
`lastIndex` update) runs only when the tested operand is actually a string.
Returns the value of `!asciiRegex.test(s)` and the regex's new `lastIndex`. -/
def asciiTestIfStr (li : Nat) : Option String → Bool × Nat
  | some s =>
    let r := gTest matchesAsciiRegex li s
    (!r.1, r.2)
  | none => (false, li)

/-- The string operand of the value ASCII check: `value` when
`typeof value === "string"`, otherwise no operand (no test runs). -/
def FITSCardValue.strContent : FITSCardValue → Option String
  | .str s => some s
  | _ => none

/-- The serialization phase of `Card.fromValue` (`src/card.ts` lines 196–239):
builds the card image from the already-validated keyword/value/comment.
`hierarchForm` is the result of the second `hierarchRegex.test(keyword)`
(line 198) and `stOut` the regex state after all of the function's tests. -/
def Card.renderImage (stOut : RegexState) (keyword : String)
    (value : FITSCardValue) (comment : Option String) (hierarchForm : Bool) :
    RegexState × Except JSError Card :=
  let image :=
    if hierarchForm then keyword ++ " " else jsPadEnd keyword KEYWORD_LENGTH ' '
  let image :=
    if SPECIAL_KEYWORDS.contains keyword then image ++ "  "
    else image ++ "= "
  match valueToString value (some image.length) with
  | .error e => (stOut, .error e)
  | .ok imageValue =>
    let commentValue :=
      match comment with
      | some c => jsTrimEnd (" / " ++ c)
      | none => ""
    if image.length + imageValue.length + commentValue.length ≤ CARD_LENGTH then
      (stOut, .ok { image := jsPadEnd (image ++ imageValue ++ commentValue) CARD_LENGTH ' ',
                    keyword := keyword, value := value, comment := comment })
    else
      match valueToString value none with
      | .error e => (stOut, .error e)
      | .ok imageValue1 =>
        if image.length + imageValue1.length + commentValue.length ≤ CARD_LENGTH then
          (stOut, .ok { image := jsPadEnd (image ++ imageValue1 ++ commentValue) CARD_LENGTH ' ',
                        keyword := keyword, value := value, comment := comment })
        else
          let maxCommentLength : Int :=
            (CARD_LENGTH : Int) - image.length - imageValue1.length
          if maxCommentLength < 0 then
            (stOut, .error .recordTooLong)
          else if maxCommentLength < 6 then
            (stOut, .ok { image := jsPadEnd (image ++ imageValue1 ++ "") CARD_LENGTH ' ',
                          keyword := keyword, value := value, comment := none })
          else
            match comment with
            | none => (stOut, .error .nullCommentSlice)
            | some c =>
              let c2 := jsSlice c 0 (maxCommentLength - 6) ++ "..."
              (stOut, .ok { image := jsPadEnd (image ++ imageValue1 ++ (" / " ++ c2)) CARD_LENGTH ' ',
                            keyword := keyword, value := value, comment := some c2 })

/-- `Card.fromValue(keyword, value, comment)`: encodes a keyword/value/comment
triple into an 80-character card image.  The `RegexState` carries the
`lastIndex` values of the module-level `/g` regexes the function consults;
each exit point returns the state with every `lastIndex` update made up to
that point applied. -/
def Card.fromValue (st : RegexState) (keyword : String) (value : FITSCardValue)
    (comment : Option String := none) : RegexState × Except JSError Card :=
  let keyword := jsTrimEnd keyword
  let t1 := gTest matchesHierarchRegex st.hierarchLI keyword
  if t1.1 && decide (CARD_LENGTH < keyword.length) then
    ({ st with hierarchLI := t1.2 }, .error .hierarchTooLong)
  else
    let t2 := gTest matchesKeywordRegex st.keywordLI keyword
    if !t2.1 then
      ({ st with hierarchLI := t1.2, keywordLI := t2.2 }, .error .invalidKeyword)
    else if keyword = "END" && (value ≠ .undef || comment ≠ none) then
      ({ st with hierarchLI := t1.2, keywordLI := t2.2 }, .error .endWithValueOrComment)
    else if keyword = "CONTINUE" && !value.isStr then
      ({ st with hierarchLI := t1.2, keywordLI := t2.2 }, .error .continueNonString)
    else
      let a1 := asciiTestIfStr st.asciiLI value.strContent
      if a1.1 then
        ({ st with hierarchLI := t1.2, keywordLI := t2.2, asciiLI := a1.2 },
         .error .nonAsciiValue)
      else
        let a2 := asciiTestIfStr a1.2 comment
        if a2.1 then
          ({ st with hierarchLI := t1.2, keywordLI := t2.2, asciiLI := a2.2 },
           .error .nonAsciiComment)
        else
          let t5 := gTest matchesHierarchRegex t1.2 keyword
          Card.renderImage
            { st with hierarchLI := t5.2, keywordLI := t2.2, asciiLI := a2.2 }
            keyword value comment t5.1

/-! ## `valueCommentRegex` and `Card.fromString` (`src/card.ts` lines 34–46, 249–292)

`valueCommentRegex` is
`^=? *(?:'(?<value_str>(?:[\x20-\x26\x28-\x7E]|'')*?) *'|(?<value_bool>[FT])|(?<value_real>NUM)|\( *(?<value_cplx_r>NUM) *, *(?<value_cplx_i>NUM) *\)) *(?:\/ *(?<comment>.+?) *)?$`
with `NUM = [+-]?(?:\.\d+|\d+(?:\.\d*)?)(?:[DE][+-]?\d+)?`.  It has no `g`
flag, so it is stateless.  The functions below implement its ECMAScript
backtracking semantics directly: alternatives are tried in written order,
greedy pieces take the longest candidate first, the lazy pieces
(`*?` in the string body, `.+?` in the comment) the shortest first, and a
candidate is kept only if the rest of the pattern matches after it. -/

/-- The string-content class `[\x20-\x26\x28-\x7E]`: printable ASCII minus
the single quote. -/
def isStrContentChar (c : Char) : Bool :=
  isPrintableAscii c && c ≠ '\''

/-- The named capture groups of `valueCommentRegex`. -/
structure VCGroups where
  value_str : Option String := none
  value_bool : Option String := none
  value_real : Option String := none
  value_cplx_r : Option String := none
  value_cplx_i : Option String := none
  comment : Option String := none
deriving DecidableEq, Repr

/-- The pattern tail after the value alternative: `" *(?:\/ *(?<comment>.+?) *)?$"`.
Returns the captured comment group when the whole remainder matches.
The leading `" *"` is greedy and nothing after it can start with a space
except via backtracking inside the comment group: when everything after the
`/` is spaces, the greedy `" *"` gives one space back and the lazy `.+?`
captures it, so the comment becomes a single space. -/
def vcMatchTail (cs : List Char) : Option (Option String) :=
  let rest := cs.dropWhile (· = ' ')
  match rest with
  | [] => some none
  | '/' :: t =>
    let u := t.dropWhile (· = ' ')
    if u.isEmpty then
      if t.isEmpty then none
      else some (some " ")
    else
      some (some ⟨(u.reverse.dropWhile (· = ' ')).reverse⟩)
  | _ => none

/-- The `" *'"` closing of the quoted-string alternative: only the maximal
run of spaces can be followed by the quote, so this is deterministic. -/
def vcCloseQuote (cs : List Char) : Option (List Char) :=
  match cs.dropWhile (· = ' ') with
  | '\'' :: rest => some rest
  | _ => none

/-- The quoted-string alternative after its opening quote: the lazy body
`(?:[\x20-\x26\x28-\x7E]|'')*?` first tries to close (`" *'"` plus the whole
tail) and only on failure consumes one more unit — a class character or an
escaped `''`.  `fuel` bounds the recursion by the remaining input length. -/
def vcMatchStrAfterQuote : Nat → List Char → List Char → Option VCGroups
  | 0, _, _ => none
  | fuel + 1, acc, cs =>
    (match vcCloseQuote cs with
     | some rest =>
       match vcMatchTail rest with
       | some cm => some { value_str := some ⟨acc.reverse⟩, comment := cm }
       | none => none
     | none => none)
    <|>
    (match cs with
     | '\'' :: '\'' :: rest => vcMatchStrAfterQuote fuel ('\'' :: acc) rest
     | c :: rest =>
       if isStrContentChar c then vcMatchStrAfterQuote fuel (c :: acc) rest
       else none
     | [] => none)

/-- The number grammar `[+-]?(?:\.\d+|\d+(?:\.\d*)?)(?:[DE][+-]?\d+)?` in
continuation-passing style: `k` receives the matched text and the rest of the
input; the optional exponent is greedy, so the with-exponent candidate is
offered before the without-exponent one. -/
def vcExpPart (s : List Char) (rest : List Char)
    (k : List Char → List Char → Option VCGroups) : Option VCGroups :=
  (match rest with
   | e :: r2 =>
     if e = 'D' || e = 'E' then
       let sg := match r2 with
         | c :: _ => if c = '+' || c = '-' then [c] else []
         | [] => []
       let r3 := r2.drop sg.length
       let ds := r3.takeWhile Char.isDigit
       if ds.isEmpty then none
       else k (s ++ e :: (sg ++ ds)) (r3.drop ds.length)
     else none
   | [] => none)
  <|> k s rest

/-- The mantissa of the number grammar, greedy fraction first. -/
def vcMatchNumber (cs : List Char)
    (k : List Char → List Char → Option VCGroups) : Option VCGroups :=
  let sign : List Char := match cs with
    | c :: _ => if c = '+' || c = '-' then [c] else []
    | [] => []
  let cs1 := cs.drop sign.length
  match cs1 with
  | '.' :: rest =>
    let ds := rest.takeWhile Char.isDigit
    if ds.isEmpty then none
    else vcExpPart (sign ++ '.' :: ds) (rest.drop ds.length) k
  | _ =>
    let ds := cs1.takeWhile Char.isDigit
    if ds.isEmpty then none
    else
      let rest1 := cs1.drop ds.length
      (match rest1 with
       | '.' :: r2 =>
         let fs := r2.takeWhile Char.isDigit
         vcExpPart (sign ++ ds ++ '.' :: fs) (r2.drop fs.length) k
       | _ => none)
      <|> vcExpPart (sign ++ ds) rest1 k

/-- The logical alternative `(?<value_bool>[FT])` plus the tail. -/
def vcMatchBool (cs : List Char) : Option VCGroups :=
  match cs with
  | c :: rest =>
    if c = 'F' || c = 'T' then
      (vcMatchTail rest).map fun cm =>
        { value_bool := some ⟨[c]⟩, comment := cm }
    else none
  | [] => none

/-- The complex alternative `\( *(?<value_cplx_r>NUM) *, *(?<value_cplx_i>NUM) *\)`
plus the tail.  The space runs around the separators are deterministic since
neither a number, the comma nor the parenthesis can start with a space. -/
def vcMatchCplx (cs : List Char) : Option VCGroups :=
  match cs with
  | '(' :: r1 =>
    vcMatchNumber (r1.dropWhile (· = ' ')) fun t1 r3 =>
      match r3.dropWhile (· = ' ') with
      | ',' :: r5 =>
        vcMatchNumber (r5.dropWhile (· = ' ')) fun t2 r7 =>
          match r7.dropWhile (· = ' ') with
          | ')' :: r9 =>
            (vcMatchTail r9).map fun cm =>
              { value_cplx_r := some ⟨t1⟩, value_cplx_i := some ⟨t2⟩, comment := cm }
          | _ => none
      | _ => none
  | _ => none

/-- `valueCommentRegex.exec(s)?.groups`: the optional `=?`, the greedy
space run (no alternative can begin with a space, so it never gives
characters back), then the four value alternatives in written order. -/
def execValueCommentRegex (s : String) : Option VCGroups :=
  let cs := match s.data with
    | '=' :: t => t
    | other => other
  let cs := cs.dropWhile (· = ' ')
  (match cs with
   | '\'' :: rest => vcMatchStrAfterQuote (rest.length + 1) [] rest
   | _ => none)
  <|> vcMatchBool cs
  <|> (vcMatchNumber cs fun txt rest =>
        (vcMatchTail rest).map fun cm => { value_real := some ⟨txt⟩, comment := cm })
  <|> vcMatchCplx cs

/-- `stringToReal(number)` of `src/card.ts`: `Number.parseFloat` of the
literal with `d`/`D`/`e`/`E` normalized to `e`.  The IEEE-754 parse (and any
later `toString` of the result) is not shallowly embeddable, so the produced
number is represented by the normalized literal itself; no settled claim
consumes a numeric value parsed from a card. -/
def stringToReal (number : String) : String :=
  ⟨number.data.map fun c =>
    if c = 'd' || c = 'D' || c = 'e' || c = 'E' then 'e' else c⟩

/-- The value indicator `"= "`. -/
def VALUE_INDICATOR : String := "= "

/-- `s.indexOf(sub)`: index of the first occurrence, `-1` when absent. -/
def jsIndexOf (s sub : String) : Int :=
  go s.data 0
where
  go : List Char → Nat → Int
    | [], _ => if sub.data.isEmpty then 0 else -1
    | l@(_ :: rest), i =>
      if sub.data.isPrefixOf l then (i : Int)
      else go rest (i + 1)

/-- `s.slice(i)` with the one-argument index arithmetic. -/
def jsSliceFrom (s : String) (i : Int) : String :=
  jsSlice s i (s.data.length : Int)

/-- `Card.fromString(image, pad)`: parses one 80-character keyword record.
When `pad` is true the image is right-padded to 80 characters, otherwise an
image of any other length is rejected.  Commentary keywords take the whole
remainder (after an optional legacy `"= "`) as a *string value* with no
comment; `HIERARCH` records re-scan for the `"= "` indicator; everything else
goes through `valueCommentRegex`. -/
def Card.fromString (image : String) (pad : Bool := true) : Except JSError Card :=
  let image := if pad then jsPadEnd image CARD_LENGTH ' ' else image
  if !pad && image.length ≠ CARD_LENGTH then
    .error .wrongImageLength
  else
    let keyword := jsTrimEnd (jsTake image KEYWORD_LENGTH)
    let valueComment := jsDrop image KEYWORD_LENGTH
    if COMMENTARY_KEYWORDS.contains keyword then
      let value :=
        if jsStartsWith valueComment VALUE_INDICATOR then
          jsDrop valueComment VALUE_INDICATOR.length
        else valueComment
      let value := jsTrim value
      .ok { image := image, keyword := keyword, value := .str value, comment := none }
    else
      -- the HIERARCH re-scan (`vi = valueComment.indexOf("= ")`); the index is
      -- computed twice below, once per reassigned variable, which is harmless
      -- because `indexOf` is pure
      let keyword2 :=
        if keyword = "HIERARCH" then
          jsTrimEnd (jsSlice valueComment 0 (jsIndexOf valueComment VALUE_INDICATOR))
        else keyword
      let valueComment2 :=
        if keyword = "HIERARCH" then
          jsSliceFrom valueComment (jsIndexOf valueComment VALUE_INDICATOR + VALUE_INDICATOR.length)
        else valueComment
      match execValueCommentRegex valueComment2 with
      | none => .error .malformedCard
      | some g =>
        let value : FITSCardValue :=
          match g.value_str with
          | some vs => .str vs
          | none =>
            match g.value_bool with
            | some vb => .bool (vb = "T")
            | none =>
              match g.value_real with
              | some vr => .num (stringToReal vr)
              | none =>
                match g.value_cplx_r, g.value_cplx_i with
                | some r, some i => .cplx (stringToReal r) (stringToReal i)
                | _, _ => .undef
        if keyword2 = "CONTINUE" && !value.isStr then
          .error .continueParsedNonString
        else
          .ok { image := image, keyword := keyword2, value := value, comment := g.comment }

/-! ## Keyword classification regexes (`src/header.ts` lines 22, 42, 67, 77)

The four classification regexes are alternations written without grouping,
so the `^` anchors only the first alternative and the `$` only the last; the
middle alternatives match as substrings anywhere.  All four carry the `/g`
flag and are used through `test`, so each keeps a `lastIndex` between calls:
`RegExpBuiltinExec` starts searching at `lastIndex` (failing outright when it
exceeds the string length), advances `lastIndex` to the match end on success
and resets it to `0` on failure. -/

/-- One alternative of a classification regex: a literal, optionally followed
by a bounded greedy character-class run, optionally anchored at the start
(`^`, first alternative) or at the end (`$`, last alternative). -/
structure KwAlt where
  pre : String
  cls : Option (Char → Bool) := none
  lo : Nat := 0
  hi : Nat := 0
  anchorStart : Bool := false
  anchorEnd : Bool := false

/-- Whether alternative `alt` matches at position `p` of `cs`, returning the
match length.  The class run is greedy; against an end anchor it must land
exactly on the end of the string. -/
def matchAltAt (alt : KwAlt) (cs : List Char) (p : Nat) : Option Nat :=
  if alt.anchorStart && decide (p ≠ 0) then none
  else
    let rest := cs.drop p
    if alt.pre.data.isPrefixOf rest then
      let body := rest.drop alt.pre.data.length
      match alt.cls with
      | none =>
        if alt.anchorEnd && !body.isEmpty then none
        else some alt.pre.data.length
      | some cl =>
        let avail := (body.takeWhile cl).length
        if alt.anchorEnd then
          if alt.lo ≤ body.length && body.length ≤ alt.hi && avail = body.length then
            some (alt.pre.data.length + body.length)
          else none
        else
          let k := min avail alt.hi
          if k < alt.lo then none else some (alt.pre.data.length + k)
    else none

/-- Leftmost-first search: try every position from `p` upward, and at each
position every alternative in written order. -/
def searchAlts (alts : List KwAlt) (cs : List Char) : Nat → Nat → Option (Nat × Nat)
  | _, 0 => none
  | p, fuel + 1 =>
    match alts.firstM (fun alt => matchAltAt alt cs p) with
    | some len => some (p, len)
    | none => searchAlts alts cs (p + 1) fuel

/-- `RegExp.prototype.test` for a `/g` classification regex: search from
`lastIndex`; on success `lastIndex` moves to the end of the match, on failure
it resets to `0`. -/
def gSearchTest (alts : List KwAlt) (li : Nat) (s : String) : Bool × Nat :=
  if s.data.length < li then (false, 0)
  else
    match searchAlts alts s.data li (s.data.length + 1 - li) with
    | some pl => (true, pl.1 + pl.2)
    | none => (false, 0)

/-- The class `\S` (not whitespace) used by `DATE\S{0,4}`. -/
def isRegexNonSpace (c : Char) : Bool :=
  !(c = ' ' || c = '\t' || c = '\n' || c = '\r' || c = '\x0b' || c = '\x0c')

/-- `fitsCardIntegerRegExp`:
`/^BITPIX|BLANK|EXTLEVEL|EXTVER|GCOUNT|NAXIS\d{0,3}|PCOUNT|TBCOL\d{1,3}|TFIELDS|THEAP$/g`. -/
def fitsCardIntegerAlts : List KwAlt :=
  [{ pre := "BITPIX", anchorStart := true },
   { pre := "BLANK" }, { pre := "EXTLEVEL" }, { pre := "EXTVER" }, { pre := "GCOUNT" },
   { pre := "NAXIS", cls := some Char.isDigit, lo := 0, hi := 3 },
   { pre := "PCOUNT" },
   { pre := "TBCOL", cls := some Char.isDigit, lo := 1, hi := 3 },
   { pre := "TFIELDS" },
   { pre := "THEAP", anchorEnd := true }]

/-- `fitsCardRealRegExp`:
`/^BSCALE|BZERO|CDELT\d{1,3}|CROTA\d{1,3}|CRPIX\d{1,3}|CRVAL\d{1,3}|DATAMAX|DATAMIN|EPOCH|EQUINOX|PSCAL\d{1,3}|PZERO\d{1,3}|TSCAL\d{1,3}|TZERO\d{1,3}$/g`. -/
def fitsCardRealAlts : List KwAlt :=
  [{ pre := "BSCALE", anchorStart := true }, { pre := "BZERO" },
   { pre := "CDELT", cls := some Char.isDigit, lo := 1, hi := 3 },
   { pre := "CROTA", cls := some Char.isDigit, lo := 1, hi := 3 },
   { pre := "CRPIX", cls := some Char.isDigit, lo := 1, hi := 3 },
   { pre := "CRVAL", cls := some Char.isDigit, lo := 1, hi := 3 },
   { pre := "DATAMAX" }, { pre := "DATAMIN" }, { pre := "EPOCH" }, { pre := "EQUINOX" },
   { pre := "PSCAL", cls := some Char.isDigit, lo := 1, hi := 3 },
   { pre := "PZERO", cls := some Char.isDigit, lo := 1, hi := 3 },
   { pre := "TSCAL", cls := some Char.isDigit, lo := 1, hi := 3 },
   { pre := "TZERO", cls := some Char.isDigit, lo := 1, hi := 3, anchorEnd := true }]

/-- `fitsCardStringRegExp`:
`/^AUTHOR|BUNIT|CTYPE\d{1,3}|DATE\S{0,4}|EXTNAME|INSTRUME|OBJECT|OBSERVER|ORIGIN|PTYPE\d{1,3}|REFERENC|TDIM\d{1,3}|TDISP\d{1,3}|TELESCOP|TFORM\d{1,3}|TTYPE\d{1,3}|TUNIT\d{1,3}|XTENSION$/g`. -/
def fitsCardStringAlts : List KwAlt :=
  [{ pre := "AUTHOR", anchorStart := true }, { pre := "BUNIT" },
   { pre := "CTYPE", cls := some Char.isDigit, lo := 1, hi := 3 },
   { pre := "DATE", cls := some isRegexNonSpace, lo := 0, hi := 4 },
   { pre := "EXTNAME" }, { pre := "INSTRUME" }, { pre := "OBJECT" },
   { pre := "OBSERVER" }, { pre := "ORIGIN" },
   { pre := "PTYPE", cls := some Char.isDigit, lo := 1, hi := 3 },
   { pre := "REFERENC" },
   { pre := "TDIM", cls := some Char.isDigit, lo := 1, hi := 3 },
   { pre := "TDISP", cls := some Char.isDigit, lo := 1, hi := 3 },
   { pre := "TELESCOP" },
   { pre := "TFORM", cls := some Char.isDigit, lo := 1, hi := 3 },
   { pre := "TTYPE", cls := some Char.isDigit, lo := 1, hi := 3 },
   { pre := "TUNIT", cls := some Char.isDigit, lo := 1, hi := 3 },
   { pre := "XTENSION", anchorEnd := true }]

/-- `fitsCardLogicalRegExp`: `/^BLOCKED|EXTEND|GROUPS|SIMPLE$/g`. -/
def fitsCardLogicalAlts : List KwAlt :=
  [{ pre := "BLOCKED", anchorStart := true }, { pre := "EXTEND" },
   { pre := "GROUPS" }, { pre := "SIMPLE", anchorEnd := true }]

/-! ## `FITSHeader.getValues` and `FITSHeader.setValue` (`src/header.ts`)

A `FITSHeader` is its private ordered card list `#cards`; the list is passed
explicitly.  `setValue` mutates the list in place in the source, so its
embedding returns the post-call card list alongside the returned index. -/

/-- `Number.isInteger(value)` observed through the `toString` rendering a
`.num` carries: finite doubles below `1e21` print as a plain (optionally
signed) digit string exactly when they are integers.  (Integer doubles at or
above `1e21` print in exponent form and are misclassified here; no settled
claim evaluates this function.) -/
def FITSCardValue.isIntegerNum : FITSCardValue → Bool
  | .num t =>
    (match t.data with
     | '-' :: rest => !rest.isEmpty && rest.all Char.isDigit
     | ds => !ds.isEmpty && ds.all Char.isDigit)
  | _ => false

/-- `typeof value === "number" && Number.isFinite(value)`: every rendering of
a finite double differs from the three non-finite renderings. -/
def FITSCardValue.isFiniteNum : FITSCardValue → Bool
  | .num t => t ≠ "Infinity" && t ≠ "-Infinity" && t ≠ "NaN"
  | _ => false

/-- JavaScript string coercion of a card value, as used by
`v.slice(0, -1) + continueCard.value`. -/
def jsValueToString : FITSCardValue → String
  | .str s => s
  | .num t => t
  | .bool b => if b then "true" else "false"
  | .cplx r i => r ++ "," ++ i
  | .undef => "null"

/-- The CONTINUE-chain resolution loop of `getValues` (`src/header.ts` lines
133–139): while the current string ends in `&` and the next card (by original
position) is a `CONTINUE` card, drop the `&` and append that card's value.
`fuel` bounds the loop by the list length; the index grows strictly, so the
source loop performs at most that many iterations. -/
def resolveContinue (cards : List Card) : String → Nat → Nat → String
  | v, _, 0 => v
  | v, i, fuel + 1 =>
    match cards.get? (i + 1) with
    | some c =>
      if jsEndsWith v "&" && decide (c.keyword = "CONTINUE") then
        resolveContinue cards (jsSlice v 0 (-1) ++ jsValueToString c.value) (i + 1) fuel
      else v
    | none => v

/-- One iteration of the `getValues` card loop: the four classification
tests run as an `if`/`else if` cascade, so a later regex is consulted (and
its `lastIndex` touched) only when every earlier one reported false. -/
def getValuesStep (cards : List Card) (st : RegexState) (index : Nat)
    (card : Card) : RegexState × Except JSError FITSCardValue :=
  let r1 := gSearchTest fitsCardIntegerAlts st.integerLI card.keyword
  let st1 : RegexState := { st with integerLI := r1.2 }
  let resolved : FITSCardValue :=
    match card.value with
    | .str s => .str (resolveContinue cards s index cards.length)
    | other => other
  if r1.1 then
    if !card.value.isIntegerNum then (st1, .error (.typeMismatch card.keyword))
    else (st1, .ok resolved)
  else
    let r2 := gSearchTest fitsCardRealAlts st1.realLI card.keyword
    let st2 : RegexState := { st1 with realLI := r2.2 }
    if r2.1 then
      if !card.value.isFiniteNum then (st2, .error (.typeMismatch card.keyword))
      else (st2, .ok resolved)
    else
      let r3 := gSearchTest fitsCardLogicalAlts st2.logicalLI card.keyword
      let st3 : RegexState := { st2 with logicalLI := r3.2 }
      if r3.1 then
        if !(card.value matches .bool _) then (st3, .error (.typeMismatch card.keyword))
        else (st3, .ok resolved)
      else
        let r4 := gSearchTest fitsCardStringAlts st3.stringLI card.keyword
        let st4 : RegexState := { st3 with stringLI := r4.2 }
        if r4.1 then
          if !card.value.isStr then (st4, .error (.typeMismatch card.keyword))
          else (st4, .ok resolved)
        else (st4, .ok resolved)

/-- The `getValues` loop over the matching cards, threading the regex state
and collecting values in document order. -/
def getValuesLoop (cards : List Card) (st : RegexState) :
    List (Nat × Card) → List FITSCardValue →
    RegexState × Except JSError (List FITSCardValue)
  | [], acc => (st, .ok acc.reverse)
  | (index, card) :: rest, acc =>
    let r := getValuesStep cards st index card
    match r.2 with
    | .error e => (r.1, .error e)
    | .ok v => getValuesLoop cards r.1 rest (v :: acc)

/-- `FITSHeader.getValues(keyword)`: collects the values of every card whose
keyword matches after trimming and upper-casing, validating each against the
keyword's category regexes and resolving CONTINUE chains on string values. -/
def FITSHeader.getValues (st : RegexState) (cards : List Card)
    (keyword : String) : RegexState × Except JSError (List FITSCardValue) :=
  let keyword := jsToUpper (jsTrim keyword)
  if keyword = "CONTINUE" || keyword = "" then (st, .error .notRetrievable)
  else
    getValuesLoop cards st
      ((cards.enum.filter fun ci => ci.2.keyword = keyword)) []

/-- `FITSHeader.getValue(keyword)`: the first of `getValues`, or absent. -/
def FITSHeader.getValue (st : RegexState) (cards : List Card)
    (keyword : String) : RegexState × Except JSError (Option FITSCardValue) :=
  let r := FITSHeader.getValues st cards keyword
  (r.1, r.2.map List.head?)

/-- `FITSHeader.setValue(keyword, value, index)` (`src/header.ts` lines
176–200).  The source mutates the private card list and returns a number, so
the embedding returns the post-call list with the returned index.  Note the
inverted guard `cards.length >= index`: whenever the occurrence index does
not exceed the match count the new card is appended (the sentinel `undefined`
removes nothing and returns `-1`); otherwise the splice path dereferences the
out-of-range `cards[index]` and throws. -/
def FITSHeader.setValue (st : RegexState) (cards : List Card)
    (keyword : String) (value : Option FITSCardValue) (index : Int := 0) :
    RegexState × Except JSError (List Card × Int) :=
  if keyword = "SIMPLE" || keyword = "CONTINUE" || keyword = "BITPIX"
      || jsStartsWith keyword "NAXIS" then
    (st, .error .keywordNotMutable)
  else
    let matched := cards.enum.filter fun ci => ci.2.keyword = keyword
    if index ≤ (matched.length : Int) then
      match value with
      | some v =>
        let r := Card.fromValue st keyword v none
        match r.2 with
        | .error e => (r.1, .error e)
        | .ok c => (r.1, .ok (cards ++ [c], ((cards ++ [c]).length : Int) - 1))
      | none => (st, .ok (cards, -1))
    else
      (st, .error .indexedCardUndefined)

/-! ## `FITSData` (`src/data.ts`)

The data unit stores raw big-endian words.  A decoded word is an `Int` for
the integer BITPIX values; for the IEEE float values it is represented by the
raw 32 or 64 bit word read from the buffer — the `getFloat32/64` decode is a
function of those bytes, so every equality between values read from equal
bytes is preserved by this representation. -/

/-- A decoded data point. -/
inductive FITSValue where
  /-- A two's complement integer (BITPIX 8, 16, 32). -/
  | int (v : Int)
  /-- The raw big-endian word of an IEEE single (BITPIX −32). -/
  | f32 (bits : Nat)
  /-- The raw big-endian word of an IEEE double (BITPIX −64). -/
  | f64 (bits : Nat)
deriving DecidableEq, Repr

/-- `DataView.prototype.get*`: bounds check, then the big-endian word made of
`w` bytes at `offset`. -/
def dataViewGet (buf : List Nat) (offset : Int) (w : Nat) :
    Except JSError Nat :=
  if offset < 0 || (buf.length : Int) < offset + w then .error .viewOutOfRange
  else .ok (((buf.drop offset.toNat).take w).foldl (fun a b => a * 256 + b) 0)

/-- Two's complement reading of a `w`-byte word. -/
def twosComplement (w : Nat) (word : Nat) : Int :=
  if 2 ^ (8 * w - 1) ≤ word then (word : Int) - 2 ^ (8 * w) else (word : Int)

/-- The big-endian bytes of `v` modulo `2^(8*w)` — the stored image of the
`DataView.prototype.setInt*` value conversion. -/
def bytesBE : Nat → Nat → List Nat
  | 0, _ => []
  | w + 1, m => bytesBE w (m / 256) ++ [m % 256]

/-- The byte image `setInt8/16/32` store for the JS number `v`. -/
def twosComplementBytes (w : Nat) (v : Int) : List Nat :=
  bytesBE w (v % ((2 ^ (8 * w) : Nat) : Int)).toNat

/-- `DataView.prototype.set*`: bounds check, then splice the bytes in. -/
def dataViewSet (buf : List Nat) (offset : Int) (bytes : List Nat) :
    Except JSError (List Nat) :=
  if offset < 0 || (buf.length : Int) < offset + bytes.length then .error .viewOutOfRange
  else .ok (buf.take offset.toNat ++ bytes ++ buf.drop (offset.toNat + bytes.length))

/-- The byte image `setFloat32/64` would store.  IEEE-754 encoding of a
JavaScript number is not shallowly embeddable; this placeholder returns a
zero word.  It is dead code for the whole development: the only caller is
`FITSData.fromArray`, whose every write targets offset `byteLength` and is
rejected by the `dataViewSet` bounds check before the bytes matter, for any
value whatsoever. -/
def floatBytesPlaceholder (w : Nat) : List Nat :=
  List.replicate w 0

/-- A FITS data unit (`FITSData` in `src/data.ts`): BITPIX, the axis count,
the axis lengths, and the raw data buffer.  The constructor performs no
validation, so the fields are unconstrained here as well. -/
structure FITSData where
  BITPIX : Int
  NAXIS : Nat
  NAXISn : List Int
  dataBuffer : List Nat
deriving DecidableEq, Repr

/-- `#readPoint(offset)`: decodes the word at a byte offset per BITPIX.
The `switch` is rendered as an `if` chain over the same cases in order. -/
def FITSData.readPoint (BITPIX : Int) (buf : List Nat) (offset : Int) :
    Except JSError FITSValue :=
  if BITPIX = 8 then (dataViewGet buf offset 1).map fun n => .int (twosComplement 1 n)
  else if BITPIX = 16 then (dataViewGet buf offset 2).map fun n => .int (twosComplement 2 n)
  else if BITPIX = 32 then (dataViewGet buf offset 4).map fun n => .int (twosComplement 4 n)
  else if BITPIX = 64 then .error .unsupportedBitDepth
  else if BITPIX = -32 then (dataViewGet buf offset 4).map .f32
  else if BITPIX = -64 then (dataViewGet buf offset 8).map .f64
  else .error .unexpectedBitpix

/-- The offset accumulation loop of `getPoint`:
`offset += coords[i] * mul; mul *= NAXISn[i]` for `i = 0 .. NAXIS-1`.  Note
that the loop adds the 1-based coordinates themselves — there is no `- 1`.
When `NAXISn` is shorter than the coordinate list the JS loop poisons `mul`
with `NaN`; every claim concerns data whose `NAXISn` spans all coordinates,
where the two agree, so the mismatch case simply stops multiplying. -/
def coordOffset : List Int → List Int → Int → Int
  | [], _, _ => 0
  | c :: _, [], mul => c * mul
  | c :: cs, a :: as2, mul => c * mul + coordOffset cs as2 (mul * a)

/-- `FITSData.getPoint(...coords)`: arity check, `NAXIS = 0` check, the
aggregated byte offset, a bounds check of that offset against the buffer
length, then the word decode. -/
def FITSData.getPoint (d : FITSData) (coords : List Int) :
    Except JSError FITSValue :=
  if coords.length ≠ d.NAXIS then .error .arityMismatch
  else if d.NAXIS = 0 then .error .noData
  else
    let offset := coordOffset coords d.NAXISn 1 * ((d.BITPIX.natAbs / 8 : Nat) : Int)
    if offset < 0 || (d.dataBuffer.length : Int) ≤ offset then .error .outOfBounds
    else FITSData.readPoint d.BITPIX d.dataBuffer offset

/-- The coordinate increment of the `getData` generator: `coords[0]++`, then
carry: while a coordinate exceeds its axis length, reset it to 1 and
increment the next.  A carry beyond the last axis appends a `NaN` cell in
JS; that state is yielded only when the buffer is longer than the axis
product (never for an invariant-respecting data unit, whose traversal stops
on the offset check first), and is modeled by dropping the carry. -/
def incCoords : List Int → List Int → List Int
  | c :: cs, a :: as2 => if a < c + 1 then 1 :: incCoords cs as2 else (c + 1) :: cs
  | cs, [] => cs
  | [], _ => []

/-- The body of the `getData` do/while loop: yield the point at the current
offset, then advance coordinates and offset.  `fuel` is the trip count of
the source loop (computed in `FITSData.getData`); a decode error aborts the
traversal exactly as a thrown exception would. -/
def getDataGo (d : FITSData) (diff : Nat) :
    Nat → List Int → Nat → Except JSError (List (List Int × FITSValue))
  | 0, _, _ => .ok []
  | fuel + 1, coords, offset =>
    match FITSData.readPoint d.BITPIX d.dataBuffer offset with
    | .error e => .error e
    | .ok v =>
      (getDataGo d diff fuel (incCoords coords d.NAXISn) (offset + diff)).map
        (fun rest => (coords, v) :: rest)

/-- `FITSData.getData()`: the full traversal of the generator, starting at
coordinates `(1, ..., 1)` and offset `0`.  The do/while loop runs once and
then continues while `offset < byteLength`, so its trip count is
`max 1 ⌈byteLength / diff⌉` (one unconditional trip even for an empty
buffer; `diff = 0` only for a BITPIX whose first decode already throws). -/
def FITSData.getData (d : FITSData) :
    Except JSError (List (List Int × FITSValue)) :=
  if d.NAXIS = 0 then .ok []
  else
    let diff := d.BITPIX.natAbs / 8
    let trips :=
      if diff = 0 then 1
      else max 1 ((d.dataBuffer.length + diff - 1) / diff)
    getDataGo d diff trips (List.replicate d.NAXIS 1) 0

/-- The write loop of `FITSData.fromArray`: each point is stored with the
offset argument `dataView.byteLength` — the (constant) view length itself,
as in the source — so every write of a non-empty data array fails the
`DataView` bounds check. -/
def fromArrayWriteAll (BITPIX : Int) :
    List Nat → List Int → Except JSError (List Nat)
  | buf, [] => .ok buf
  | buf, point :: rest =>
    let w :=
      if BITPIX = 8 then dataViewSet buf buf.length (twosComplementBytes 1 point)
      else if BITPIX = 16 then dataViewSet buf buf.length (twosComplementBytes 2 point)
      else if BITPIX = 32 then dataViewSet buf buf.length (twosComplementBytes 4 point)
      else if BITPIX = 64 then .error .unsupportedBitDepth
      else if BITPIX = -32 then dataViewSet buf buf.length (floatBytesPlaceholder 4)
      else if BITPIX = -64 then dataViewSet buf buf.length (floatBytesPlaceholder 8)
      else .error .unexpectedBitpix
    match w with
    | .error e => .error e
    | .ok buf2 => fromArrayWriteAll BITPIX buf2 rest

/-- `FITSData.fromArray(data, BITPIX, axes)`: shape check, buffer
allocation, then the write loop. -/
def FITSData.fromArray (data : List Int) (BITPIX : Int) (axes : List Int) :
    Except JSError FITSData :=
  let points := axes.foldl (· * ·) 1
  if (data.length : Int) ≠ points then .error .shapeMismatch
  else
    let byteLen := points * ((BITPIX.natAbs / 8 : Nat) : Int)
    if byteLen < 0 then .error .negativeBufferLength
    else
      match fromArrayWriteAll BITPIX (List.replicate byteLen.toNat 0) data with
      | .error e => .error e
      | .ok buf =>
        .ok { BITPIX := BITPIX, NAXIS := axes.length, NAXISn := axes, dataBuffer := buf }

/-! ## Serialization: `FITSHeader.toBuffer` and `FITS.toBuffer`
(`src/header.ts` lines 252–268, `src/fits.ts` lines 27–55) -/

/-- The block size, 2880 bytes. -/
def BLOCK_SIZE : Nat := 2880

/-- `Math.ceil(n / BLOCK_SIZE) * BLOCK_SIZE`: the float division and ceiling
are exact for every buffer length representable as a double. -/
def blockAlign (n : Nat) : Nat :=
  ((n + BLOCK_SIZE - 1) / BLOCK_SIZE) * BLOCK_SIZE

/-- `new TextEncoder().encode(record)`: UTF-8 bytes of the record.  For the
printable-ASCII images this codec produces, UTF-8 is one byte per character,
the character's code point; code points above 127 (never produced by the
codec) would really expand to several bytes. -/
def textEncodeAscii (s : String) : List Nat :=
  s.data.map Char.toNat

/-- The per-byte `view.setUint8(pos + j, src[j])` copy loop of the
serializers: byte `j` of `src` lands at index `pos + j` of `dst`.  The loop
throws (discarding the partially written buffer with it) exactly when some
target index falls outside `dst`, i.e. when `src` is non-empty and
`pos + src.length` exceeds the buffer; with no bytes to write it never
touches the buffer. -/
def copyBytesAt (dst : List Nat) (pos : Nat) (src : List Nat) :
    Except JSError (List Nat) :=
  if src.isEmpty then .ok dst
  else if dst.length < pos + src.length then .error .viewOutOfRange
  else .ok (dst.take pos ++ src ++ dst.drop (pos + src.length))

/-- The `for (i = a; i < b; i++) view.setUint8(i, v)` padding loops: fills
the index range `[a, b)` with the byte `v`, throwing when the range reaches
outside the buffer. -/
def fillBytes (dst : List Nat) (a b : Nat) (v : Nat) :
    Except JSError (List Nat) :=
  if b ≤ a then .ok dst
  else if dst.length < b then .error .viewOutOfRange
  else .ok (dst.take a ++ List.replicate (b - a) v ++ dst.drop b)

/-- The card-image writing loop of `FITSHeader.toBuffer`: card `i`'s encoded
image is copied to offset `i * 80` of the zero-initialized buffer. -/
def writeCards : List Nat → List Card → Nat → Except JSError (List Nat)
  | buf, [], _ => .ok buf
  | buf, c :: rest, i =>
    match copyBytesAt buf (i * CARD_LENGTH) (textEncodeAscii c.image) with
    | .error e => .error e
    | .ok buf2 => writeCards buf2 rest (i + 1)

/-- `FITSHeader.toBuffer()`: appends a freshly encoded `END` card (another
`Card.fromValue` call, with its regex-state effects) and serializes every
card image into a `cards.length * 80` byte buffer. -/
def FITSHeader.toBuffer (st : RegexState) (cards : List Card) :
    RegexState × Except JSError (List Nat) :=
  let r := Card.fromValue st "END" .undef none
  match r.2 with
  | .error e => (r.1, .error e)
  | .ok endCard =>
    let cardsAll := cards ++ [endCard]
    (r.1, writeCards (List.replicate (cardsAll.length * CARD_LENGTH) 0) cardsAll 0)

/-- `FITSData.toBuffer()`: a `structuredClone` of the backing buffer — the
same bytes. -/
def FITSData.toBuffer (d : FITSData) : List Nat :=
  d.dataBuffer

/-- A FITS file (`FITS` in `src/fits.ts`): a header and a data unit. -/
structure FITS where
  header : List Card
  data : FITSData

/-- `FITS.toBuffer()`: serializes the header, pads it with ASCII spaces (32)
to the next block boundary, then the data buffer padded with zero bytes to
the next block boundary. -/
def FITS.toBuffer (st : RegexState) (f : FITS) :
    RegexState × Except JSError (List Nat) :=
  let hr := FITSHeader.toBuffer st f.header
  match hr.2 with
  | .error e => (hr.1, .error e)
  | .ok headerBuffer =>
    let dataBuffer := f.data.toBuffer
    let headerLength := blockAlign headerBuffer.length
    let dataLength := blockAlign dataBuffer.length
    let totalLength := headerLength + dataLength
    match copyBytesAt (List.replicate totalLength 0) 0 headerBuffer with
    | .error e => (hr.1, .error e)
    | .ok b1 =>
      match fillBytes b1 headerBuffer.length headerLength 32 with
      | .error e => (hr.1, .error e)
      | .ok b2 =>
        match copyBytesAt b2 headerLength dataBuffer with
        | .error e => (hr.1, .error e)
        | .ok b3 =>
          match fillBytes b3 (headerLength + dataBuffer.length)
              (headerLength + dataLength) 0 with
          | .error e => (hr.1, .error e)
          | .ok b4 => (hr.1, .ok b4)

/-! ## Concrete data units used by the claim theorems -/

/-- A 1×1 byte matrix holding the single value 42. -/
def unitByteMatrix : FITSData :=
  { BITPIX := 8, NAXIS := 1, NAXISn := [1], dataBuffer := [42] }

/-- A 2×3 matrix of 16-bit words, all zero. -/
def zero2x3Matrix : FITSData :=
  { BITPIX := 16, NAXIS := 2, NAXISn := [2, 3], dataBuffer := List.replicate 12 0 }

/-- A FITS file with no header cards and three data bytes, for the
serialization witness. -/
def smallFits : FITS :=
  { header := [],
    data := { BITPIX := 8, NAXIS := 1, NAXISn := [3], dataBuffer := [1, 2, 3] } }

/-- The serialized header bytes of `smallFits` (one END card). -/
def smallHeaderBytes : List Nat :=
  (FITSHeader.toBuffer RegexState.init smallFits.header).2.toOption.getD []

/-! ## Concrete cards used by the claim theorems -/

/-- A `TTYPE1` string card with the given image and value. -/
def ttypeCard (i v : String) : Card :=
  { image := i, keyword := "TTYPE1", value := .str v, comment := none }

/-- A `CONTINUE` string card with the given image and value. -/
def contCard (i v : String) : Card :=
  { image := i, keyword := "CONTINUE", value := .str v, comment := none }

/-- A fallback card used only as the default of `Except.toOption.getD`. -/
def blankFallbackCard : Card :=
  { image := "", keyword := "", value := .undef, comment := none }

/-- The parsed `TTYPE1 = 'ABCDEFG&'` record of Scenario B. -/
def scenarioTTYPE1 : Card :=
  (Card.fromString "TTYPE1  = 'ABCDEFG&'").toOption.getD blankFallbackCard

/-- The parsed `CONTINUE  '  HIJK    ' / extra` record of Scenario B. -/
def scenarioCONTINUE : Card :=
  (Card.fromString "CONTINUE  '  HIJK    ' / extra").toOption.getD blankFallbackCard

/-- A sample non-structural card for the `setValue` theorems. -/
def fooCard : Card :=
  { image := jsPadEnd "FOO     = 'a'" CARD_LENGTH ' ', keyword := "FOO",
    value := .str "a", comment := none }

/-- The card `setValue` encodes for `("FOO", "x")`. -/
def fooXCard : Card :=
  { image := jsPadEnd "FOO     = 'x'" CARD_LENGTH ' ', keyword := "FOO",
    value := .str "x", comment := none }

/-! # Theorems -/

/-- Length of a trimmed string never exceeds the original length. -/
theorem jsTrimEnd_length_le (s : String) : (jsTrimEnd s).length ≤ s.length := by
  show (s.data.reverse.dropWhile jsWhitespace).reverse.length ≤ s.data.length
  rw [List.length_reverse]
  calc (s.data.reverse.dropWhile jsWhitespace).length
      ≤ s.data.reverse.length := by
        induction s.data.reverse with
        | nil => simp [List.dropWhile]
        | cons a t ih =>
          simp only [List.dropWhile]
          split
          · exact Nat.le_succ_of_le ih
          · simp
    _ = s.data.length := List.length_reverse _

/-- Length of a padded string is the maximum of the target and the original. -/
theorem jsPadEnd_length (s : String) (n : Nat) (c : Char) :
    (jsPadEnd s n c).length = max n s.length := by
  show (s.data ++ List.replicate (n - s.data.length) c).length = max n s.data.length
  rw [List.length_append, List.length_replicate]
  omega

/-- Padding a string that is already long enough is the identity. -/
theorem jsPadEnd_of_le (s : String) (n : Nat) (c : Char) (h : n ≤ s.length) :
    jsPadEnd s n c = s := by
  show String.mk (s.data ++ List.replicate (n - s.data.length) c) = s
  have : n - s.data.length = 0 := Nat.sub_eq_zero_of_le h
  rw [this]
  simp

theorem jsPadStart_length (s : String) (n : Nat) (c : Char) :
    (jsPadStart s n c).length = max n s.length := by
  show (List.replicate (n - s.data.length) c ++ s.data).length = max n s.data.length
  rw [List.length_append, List.length_replicate]
  omega

theorem jsTake_length_le (s : String) (n : Nat) : (jsTake s n).length ≤ n := by
  show (s.data.take n).length ≤ n
  simp [List.length_take]

theorem string_length_append (s t : String) :
    (s ++ t).length = s.length + t.length := by
  simp [String.length_append]

/-! ## Length facts about `Card.renderImage` and `Card.fromValue` -/

theorem string_data_append (s t : String) :
    (String.append s t).data = s.data ++ t.data := by
  cases s; cases t; rfl

set_option maxHeartbeats 1000000 in
/-- Every card produced by the serialization phase has an 80-character
image: each success branch is guarded by a length bound on the composed
`image + value + comment` string, and the final `padEnd` never truncates. -/
theorem renderImage_ok_length (st st' : RegexState) (keyword : String)
    (value : FITSCardValue) (comment : Option String) (hf : Bool) (card : Card)
    (h : Card.renderImage st keyword value comment hf = (st', .ok card)) :
    card.image.length = 80 := by
  rw [Card.renderImage.eq_def] at h
  dsimp only at h
  repeat' split at h
  all_goals (try (cases h))
  all_goals (
    simp only [CARD_LENGTH, KEYWORD_LENGTH, String.length, String.data_append, string_data_append,
      jsPadEnd, jsSlice, List.length_append, List.length_replicate, List.length_drop, List.length_take,
      show (" / " : String).data.length = 3 from rfl, show ("..." : String).data.length = 3 from rfl,
      show ("  " : String).data.length = 2 from rfl, show (" " : String).data.length = 1 from rfl,
      show ("= " : String).data.length = 2 from rfl, show ("" : String).data.length = 0 from rfl] at *)
  all_goals (repeat' split)
  all_goals omega

/-! ## Claim theorems about `Card.fromValue` and `realToString` -/

set_option maxHeartbeats 1000000 in
/-- C7: for every keyword, value and comment for which `Card.fromValue`
returns a card rather than an error — whatever the ambient regex state — the
produced image is exactly 80 characters long, never longer and never
shorter. -/
theorem fromValue_image_exactly_80 (st st' : RegexState) (keyword : String)
    (value : FITSCardValue) (comment : Option String) (card : Card)
    (h : Card.fromValue st keyword value comment = (st', .ok card)) :
    card.image.length = 80 := by
  rw [Card.fromValue.eq_def] at h
  dsimp only at h
  repeat' split at h
  all_goals (try (cases h))
  all_goals (exact renderImage_ok_length _ _ _ _ _ _ _ h)

/-- Witness for C7: encoding `SIMPLE = T` from the module-load regex state
succeeds and the resulting image has exactly 80 characters. -/
theorem fromValue_image_exactly_80_witness :
    ((Card.fromValue RegexState.init "SIMPLE" (.bool true) none).2.toOption.getD
      { image := "", keyword := "", value := .undef, comment := none }).image.length = 80 :=
  fromValue_image_exactly_80 RegexState.init { keywordLI := 6 } "SIMPLE"
    (.bool true) none _ rfl

/-- C5 (code bug): `Card.fromValue` is not a pure function of its arguments.
`keywordRegex` is declared with the `/g` flag, so a successful
`keywordRegex.test(keyword)` leaves `lastIndex` at the match length; the next
call with the very same valid arguments then starts matching past the anchor,
fails, and throws `Invalid keyword`.  Here the first
`Card.fromValue("SIMPLE", true)` succeeds and the identical second call
errors. -/
theorem fromValue_second_identical_call_fails :
    (Card.fromValue RegexState.init "SIMPLE" (.bool true) none).2.toOption.isSome = true ∧
    (Card.fromValue (Card.fromValue RegexState.init "SIMPLE" (.bool true) none).1
        "SIMPLE" (.bool true) none).2 = .error .invalidKeyword := by
  constructor
  · rfl
  · rfl

/-! ## Claim theorems about `FITS.toBuffer` (C9) -/

theorem blockAlign_ge (n : Nat) : n ≤ blockAlign n := by
  unfold blockAlign BLOCK_SIZE
  omega

theorem blockAlign_mod (n : Nat) : blockAlign n % BLOCK_SIZE = 0 := by
  unfold blockAlign BLOCK_SIZE
  omega

theorem copyBytesAt_eq (dst : List Nat) (pos : Nat) (src : List Nat)
    (h : pos + src.length ≤ dst.length) :
    copyBytesAt dst pos src = .ok (dst.take pos ++ src ++ dst.drop (pos + src.length)) := by
  unfold copyBytesAt
  rcases hsrc : src with _ | ⟨x, xs⟩
  · simp [List.take_append_drop]
  · rw [← hsrc, if_neg (by simp [hsrc]), if_neg (by omega)]

theorem fillBytes_eq (dst : List Nat) (a b v : Nat) (hab : a ≤ b)
    (h : b ≤ dst.length) :
    fillBytes dst a b v = .ok (dst.take a ++ List.replicate (b - a) v ++ dst.drop b) := by
  unfold fillBytes
  by_cases hba : b ≤ a
  · have : a = b := by omega
    subst this
    simp [List.take_append_drop]
  · rw [if_neg hba, if_neg (by omega)]

theorem drop_append_ge (l1 l2 : List Nat) (n : Nat) (h : l1.length ≤ n) :
    (l1 ++ l2).drop n = l2.drop (n - l1.length) := by
  rw [show n = l1.length + (n - l1.length) from by omega, List.drop_append]
  congr 1
  omega

theorem take_append_ge (l1 l2 : List Nat) (n : Nat) (h : l1.length ≤ n) :
    (l1 ++ l2).take n = l1 ++ l2.take (n - l1.length) := by
  rw [List.take_append_eq_append_take, List.take_of_length_le h]

set_option maxHeartbeats 1000000 in
theorem writePaddedBlocks (st2 : RegexState) (hb db : List Nat) (hL dL : Nat)
    (h1 : hb.length ≤ hL) (h2 : db.length ≤ dL) :
    (match copyBytesAt (List.replicate (hL + dL) 0) 0 hb with
     | .error e => (st2, Except.error e)
     | .ok b1 =>
       match fillBytes b1 hb.length hL 32 with
       | .error e => (st2, .error e)
       | .ok b2 =>
         match copyBytesAt b2 hL db with
         | .error e => (st2, .error e)
         | .ok b3 =>
           match fillBytes b3 (hL + db.length) (hL + dL) 0 with
           | .error e => (st2, .error e)
           | .ok b4 => (st2, .ok b4)) =
    (st2, .ok (hb ++ List.replicate (hL - hb.length) 32 ++ db ++
      List.replicate (dL - db.length) 0)) := by
  rw [copyBytesAt_eq _ _ _ (by simp only [List.length_replicate]; omega)]
  have e1 : (List.replicate (hL + dL) 0).take 0 ++ hb ++
      (List.replicate (hL + dL) 0).drop (0 + hb.length) =
      hb ++ List.replicate (hL + dL - hb.length) 0 := by
    simp [List.drop_replicate]
  rw [e1]
  dsimp only
  rw [fillBytes_eq _ _ _ _ h1 (by simp only [List.length_append, List.length_replicate]; omega)]
  have e2 : (hb ++ List.replicate (hL + dL - hb.length) 0).take hb.length ++
      List.replicate (hL - hb.length) 32 ++
      (hb ++ List.replicate (hL + dL - hb.length) 0).drop hL =
      hb ++ (List.replicate (hL - hb.length) 32 ++ List.replicate dL 0) := by
    rw [List.take_left hb, drop_append_ge _ _ _ h1, List.drop_replicate]
    simp only [List.append_assoc]
    congr 3
    omega
  rw [e2]
  dsimp only
  rw [copyBytesAt_eq _ _ _ (by
    simp only [List.length_append, List.length_replicate]; omega)]
  have e3take : (hb ++ (List.replicate (hL - hb.length) 32 ++ List.replicate dL 0)).take hL =
      hb ++ List.replicate (hL - hb.length) 32 := by
    rw [take_append_ge _ _ _ h1,
      take_append_ge _ _ _ (by simp only [List.length_replicate]; exact le_refl _),
      show hL - hb.length - (List.replicate (hL - hb.length) 32).length = 0 from by
        simp only [List.length_replicate]; omega,
      List.take_zero, List.append_nil]
  have e3drop : (hb ++ (List.replicate (hL - hb.length) 32 ++ List.replicate dL 0)).drop
      (hL + db.length) = List.replicate (dL - db.length) 0 := by
    rw [drop_append_ge _ _ _ (by omega),
      drop_append_ge _ _ _ (by simp only [List.length_replicate]; omega),
      List.drop_replicate]
    congr 1
    simp only [List.length_replicate]
    omega
  rw [e3take, e3drop]
  dsimp only
  rw [fillBytes_eq _ _ _ _ (by omega) (by
    simp only [List.length_append, List.length_replicate]; omega)]
  have hlenfull : ((hb ++ List.replicate (hL - hb.length) 32) ++ db ++
      List.replicate (dL - db.length) 0).length = hL + dL := by
    simp only [List.length_append, List.length_replicate]
    omega
  have e4take : ((hb ++ List.replicate (hL - hb.length) 32) ++ db ++
      List.replicate (dL - db.length) 0).take (hL + db.length) =
      (hb ++ List.replicate (hL - hb.length) 32) ++ db := by
    have hlen4 : (hb ++ List.replicate (hL - hb.length) 32 ++ db).length = hL + db.length := by
      simp only [List.length_append, List.length_replicate]; omega
    rw [take_append_ge _ _ _ (by simp only [List.length_append, List.length_replicate]; omega),
      hlen4]
    simp
  have e4drop : ((hb ++ List.replicate (hL - hb.length) 32) ++ db ++
      List.replicate (dL - db.length) 0).drop (hL + dL) = [] := by
    apply List.drop_eq_nil_of_le
    simp only [List.length_append, List.length_replicate]
    omega
  have e4cnt : hL + dL - (hL + db.length) = dL - db.length := by omega
  rw [e4take, e4drop, e4cnt, List.append_nil]

set_option maxHeartbeats 1000000 in
/-- C9: for every FITS file whose header serializes to some byte string,
`toBuffer()` succeeds and returns exactly the serialized header right-padded
with ASCII spaces (32) to the next multiple of 2880, followed by the data
buffer right-padded with zero bytes to the next multiple of 2880; the total
length is an exact multiple of 2880. -/
theorem toBuffer_block_layout (st st2 : RegexState) (f : FITS) (hb : List Nat)
    (hh : FITSHeader.toBuffer st f.header = (st2, .ok hb)) :
    FITS.toBuffer st f = (st2, .ok (
      hb ++ List.replicate (blockAlign hb.length - hb.length) 32 ++
      f.data.dataBuffer ++
      List.replicate (blockAlign f.data.dataBuffer.length - f.data.dataBuffer.length) 0)) ∧
    (hb ++ List.replicate (blockAlign hb.length - hb.length) 32 ++
      f.data.dataBuffer ++
      List.replicate (blockAlign f.data.dataBuffer.length - f.data.dataBuffer.length) 0).length
      % BLOCK_SIZE = 0 := by
  constructor
  · unfold FITS.toBuffer
    rw [hh]
    dsimp only [FITSData.toBuffer]
    exact writePaddedBlocks st2 hb f.data.dataBuffer (blockAlign hb.length)
      (blockAlign f.data.dataBuffer.length) (blockAlign_ge _) (blockAlign_ge _)
  · have hm1 := blockAlign_mod hb.length
    have hm2 := blockAlign_mod f.data.dataBuffer.length
    have hge1 := blockAlign_ge hb.length
    have hge2 := blockAlign_ge f.data.dataBuffer.length
    simp only [List.length_append, List.length_replicate, BLOCK_SIZE] at *
    omega

/-- Witness for C9: a FITS file with an empty card list and a 3-byte data
unit serializes to the stated block layout from the module-load regex
state. -/
theorem toBuffer_block_layout_witness :
    FITS.toBuffer RegexState.init smallFits =
      ({ RegexState.init with keywordLI := 3 }, .ok (
        smallHeaderBytes ++
        List.replicate (blockAlign smallHeaderBytes.length - smallHeaderBytes.length) 32 ++
        smallFits.data.dataBuffer ++
        List.replicate (blockAlign smallFits.data.dataBuffer.length -
          smallFits.data.dataBuffer.length) 0)) ∧
    (smallHeaderBytes ++
      List.replicate (blockAlign smallHeaderBytes.length - smallHeaderBytes.length) 32 ++
      smallFits.data.dataBuffer ++
      List.replicate (blockAlign smallFits.data.dataBuffer.length -
        smallFits.data.dataBuffer.length) 0).length % BLOCK_SIZE = 0 :=
  toBuffer_block_layout RegexState.init { RegexState.init with keywordLI := 3 }
    smallFits smallHeaderBytes rfl

/-! ## Claim theorems about `FITSData` (C1, C2, C10) -/

theorem coordOffset_replicate_zero (n : Nat) (axes : List Int) (mul : Int) :
    coordOffset (List.replicate n 0) axes mul = 0 := by
  induction n generalizing axes mul with
  | zero => rfl
  | succ k ih =>
    cases axes with
    | nil =>
      cases k with
      | zero => simp [coordOffset]
      | succ m => simp [List.replicate, coordOffset, ih]
    | cons a as2 => simp [List.replicate, coordOffset, ih]

theorem foldl_mul_pos (axes : List Int) (init : Int)
    (hax : ∀ a ∈ axes, 1 ≤ a) (hinit : 1 ≤ init) :
    1 ≤ axes.foldl (· * ·) init := by
  induction axes generalizing init with
  | nil => simpa using hinit
  | cons a as2 ih =>
    simp only [List.foldl_cons]
    refine ih _ (fun x hx => hax x (List.mem_cons_of_mem _ hx)) ?_
    have ha := hax a (List.mem_cons_self _ _)
    nlinarith

theorem wordBytes_pos (b : Int)
    (hbp : b = 8 ∨ b = 16 ∨ b = 32 ∨ b = -32 ∨ b = -64) :
    1 ≤ (b.natAbs / 8 : Nat) := by
  rcases hbp with h | h | h | h | h <;> subst h <;> decide

/-- The word decoder can fail with the DataView range error, the unsupported
64-bit error or the unexpected-BITPIX error, but never with `getPoint`'s own
`Coordinates out of bounds` error. -/
theorem readPoint_never_outOfBounds (b : Int) (buf : List Nat) (off : Int) :
    FITSData.readPoint b buf off ≠ .error .outOfBounds := by
  intro h
  unfold FITSData.readPoint dataViewGet at h
  repeat' split at h
  all_goals simp_all [Except.map]

theorem exceptMap_isSome {α β γ : Type} (f : α → β) (x : Except γ α) :
    ((x.map f).toOption.isSome) = x.toOption.isSome := by
  cases x <;> rfl

theorem dataViewGet_zero_isSome (buf : List Nat) (w : Nat)
    (hwle : (w : Int) ≤ (buf.length : Int)) :
    (dataViewGet buf 0 w).toOption.isSome = true := by
  unfold dataViewGet
  rw [if_neg (by simp; omega)]
  rfl

set_option maxHeartbeats 1000000 in
/-- C10: for every invariant-respecting data matrix with `NAXIS ≥ 1` and a
supported BITPIX, `getPoint` raises its `Coordinates out of bounds` error
exactly when the aggregated byte offset is negative or at least the buffer
length — no per-axis range check exists — and the all-zero coordinate call
passes the check and returns the word decoded at byte offset 0. -/
theorem getPoint_bounds_check_only (d : FITSData) (coords : List Int)
    (hn : 1 ≤ d.NAXIS) (hlen : coords.length = d.NAXIS)
    (hax : ∀ a ∈ d.NAXISn, 1 ≤ a)
    (hbp : d.BITPIX = 8 ∨ d.BITPIX = 16 ∨ d.BITPIX = 32 ∨ d.BITPIX = -32 ∨ d.BITPIX = -64)
    (hbuf : (d.dataBuffer.length : Int) =
      d.NAXISn.foldl (· * ·) 1 * ((d.BITPIX.natAbs / 8 : Nat) : Int)) :
    (FITSData.getPoint d coords = .error .outOfBounds ↔
      (coordOffset coords d.NAXISn 1 * ((d.BITPIX.natAbs / 8 : Nat) : Int) < 0 ∨
       (d.dataBuffer.length : Int) ≤
         coordOffset coords d.NAXISn 1 * ((d.BITPIX.natAbs / 8 : Nat) : Int))) ∧
    FITSData.getPoint d (List.replicate d.NAXIS 0) =
      FITSData.readPoint d.BITPIX d.dataBuffer 0 ∧
    (FITSData.readPoint d.BITPIX d.dataBuffer 0).toOption.isSome = true := by
  have hw : 1 ≤ ((d.BITPIX.natAbs / 8 : Nat) : Int) := by
    have := wordBytes_pos d.BITPIX hbp
    omega
  have hprod : 1 ≤ d.NAXISn.foldl (· * ·) 1 := foldl_mul_pos _ _ hax (by omega)
  have hlenpos : (1 : Int) ≤ d.dataBuffer.length := by
    rw [hbuf]; nlinarith
  refine ⟨?_, ?_, ?_⟩
  · unfold FITSData.getPoint
    rw [if_neg (by omega), if_neg (by omega)]
    by_cases hc : coordOffset coords d.NAXISn 1 * ((d.BITPIX.natAbs / 8 : Nat) : Int) < 0 ∨
        (d.dataBuffer.length : Int) ≤ coordOffset coords d.NAXISn 1 * ((d.BITPIX.natAbs / 8 : Nat) : Int)
    · rw [if_pos (by simp only [Bool.or_eq_true, decide_eq_true_eq]; exact hc)]
      exact iff_of_true rfl hc
    · rw [if_neg (by simp only [Bool.or_eq_true, decide_eq_true_eq]; exact hc)]
      constructor
      · intro hcontra
        exact absurd hcontra (readPoint_never_outOfBounds _ _ _)
      · intro hcontra
        exact absurd hcontra hc
  · have hoff : coordOffset (List.replicate d.NAXIS 0) d.NAXISn 1 *
        ((d.BITPIX.natAbs / 8 : Nat) : Int) = 0 := by
      rw [coordOffset_replicate_zero]; ring
    unfold FITSData.getPoint
    rw [if_neg (by simp), if_neg (by omega), hoff,
      if_neg (by simp only [Bool.or_eq_true, decide_eq_true_eq]; omega)]
  · have hwlen : ((d.BITPIX.natAbs / 8 : Nat) : Int) ≤ (d.dataBuffer.length : Int) := by
      rw [hbuf]; nlinarith
    rcases hbp with h | h | h | h | h <;>
      (rw [FITSData.readPoint.eq_def]
       rw [h] at hwlen ⊢
       norm_num
       rw [exceptMap_isSome]
       exact dataViewGet_zero_isSome _ _ (by exact_mod_cast hwlen))

/-- Witness for C10 on the 2×3 matrix of 16-bit zeros, with the coordinates
`(2, 3)`: the theorem's hypotheses hold and its three conclusions follow. -/
theorem getPoint_bounds_check_only_witness :
    (FITSData.getPoint zero2x3Matrix [2, 3] = .error .outOfBounds ↔
      (coordOffset [2, 3] zero2x3Matrix.NAXISn 1 * ((zero2x3Matrix.BITPIX.natAbs / 8 : Nat) : Int) < 0 ∨
       (zero2x3Matrix.dataBuffer.length : Int) ≤
         coordOffset [2, 3] zero2x3Matrix.NAXISn 1 * ((zero2x3Matrix.BITPIX.natAbs / 8 : Nat) : Int))) ∧
    FITSData.getPoint zero2x3Matrix (List.replicate zero2x3Matrix.NAXIS 0) =
      FITSData.readPoint zero2x3Matrix.BITPIX zero2x3Matrix.dataBuffer 0 ∧
    (FITSData.readPoint zero2x3Matrix.BITPIX zero2x3Matrix.dataBuffer 0).toOption.isSome = true :=
  getPoint_bounds_check_only zero2x3Matrix [2, 3] (by decide) (by decide)
    (by decide) (by decide) (by decide)

/-- C1 (code bug): the `getData`/`getPoint` round trip fails.  On a 1×1 byte
matrix holding the value 42, `getData` yields the single pair with
coordinates `(1)`, but `getPoint(1)` — fed those very coordinates — computes
byte offset `1 * 1 = 1` (the loop never subtracts 1 from the 1-based
coordinates) and throws `Coordinates out of bounds` instead of returning 42. -/
theorem getData_getPoint_roundtrip_fails :
    FITSData.getData unitByteMatrix = .ok [([1], .int 42)] ∧
    FITSData.getPoint unitByteMatrix [1] = .error .outOfBounds := by
  refine ⟨rfl, rfl⟩

/-- C2 (code bug): `FITSData.fromArray` never succeeds on non-empty data.
Every `dataView.set*` call in its write loop passes `dataView.byteLength`
itself as the byte offset, which is always out of range, so the very first
point already throws the DataView RangeError — here for a 1-element single
byte array and for the spec's own Scenario-C-like 16-bit 2×2 input. -/
theorem fromArray_first_write_out_of_bounds :
    FITSData.fromArray [1] 8 [1] = .error .viewOutOfRange ∧
    FITSData.fromArray [1, 2, 3, 4] 16 [2, 2] = .error .viewOutOfRange := by
  refine ⟨rfl, rfl⟩

/-! ## Claim theorems about `FITSHeader.getValues` (C4) and `FITSHeader.setValue` (C3) -/

/-- C4 (amended): for a string card whose value ends in `&` immediately
followed by a CONTINUE card, `getValues` returns the chained string with the
joining `&` removed and the CONTINUE card's parsed value appended verbatim —
leading spaces of the continuation value included; only the `&` disappears. -/
theorem getValues_ttype1_continue_chain (i1 i2 : String) (v1 v2 : String)
    (hv1 : jsEndsWith v1 "&" = true) :
    FITSHeader.getValues RegexState.init [ttypeCard i1 v1, contCard i2 v2] "TTYPE1" =
    ({ RegexState.init with stringLI := 6 },
     .ok [.str (jsSlice v1 0 (-1) ++ v2)]) := by
  have hres : resolveContinue [ttypeCard i1 v1, contCard i2 v2] v1 0 2 =
      jsSlice v1 0 (-1) ++ v2 := by
    have h1 : resolveContinue [ttypeCard i1 v1, contCard i2 v2] v1 0 2 =
        if jsEndsWith v1 "&" && decide ((contCard i2 v2).keyword = "CONTINUE") then
          resolveContinue [ttypeCard i1 v1, contCard i2 v2]
            (jsSlice v1 0 (-1) ++ jsValueToString (contCard i2 v2).value) 1 1
        else v1 := rfl
    rw [h1, hv1]
    rfl
  have hmain : FITSHeader.getValues RegexState.init [ttypeCard i1 v1, contCard i2 v2] "TTYPE1" =
      ({ RegexState.init with stringLI := 6 },
       .ok [.str (resolveContinue [ttypeCard i1 v1, contCard i2 v2] v1 0 2)]) := rfl
  rw [hmain, hres]

/-- Witness for the amended C4 theorem at the spec's Scenario B values. -/
theorem getValues_ttype1_continue_chain_witness :
    FITSHeader.getValues RegexState.init
      [ttypeCard (jsPadEnd "TTYPE1  = 'ABCDEFG&'" CARD_LENGTH ' ') "ABCDEFG&",
       contCard (jsPadEnd "CONTINUE  '  HIJK    ' / extra" CARD_LENGTH ' ') "  HIJK"] "TTYPE1" =
    ({ RegexState.init with stringLI := 6 }, .ok [.str "ABCDEFG  HIJK"]) :=
  getValues_ttype1_continue_chain
    (jsPadEnd "TTYPE1  = 'ABCDEFG&'" CARD_LENGTH ' ')
    (jsPadEnd "CONTINUE  '  HIJK    ' / extra" CARD_LENGTH ' ')
    "ABCDEFG&" "  HIJK" (by decide)

/-- Counterexample for C4 as stated: on the spec's own Scenario B cards,
`getValue("TTYPE1")` returns `"ABCDEFG  HIJK"` — the leading spaces of the
CONTINUE card's string value survive — not `"ABCDEFGHIJK"`. -/
theorem getValue_scenarioB_keeps_leading_spaces :
    (FITSHeader.getValue RegexState.init [scenarioTTYPE1, scenarioCONTINUE] "TTYPE1").2 =
      .ok (some (.str "ABCDEFG  HIJK")) ∧
    FITSCardValue.str "ABCDEFG  HIJK" ≠ .str "ABCDEFGHIJK" := by
  refine ⟨rfl, by decide⟩

/-- C3 (amended): `setValue` is not copy-on-write.  An accepted call with a
non-sentinel value appends the freshly encoded card to the receiver's own
card list — the receiver's ordered card sequence after the call differs from
the one before — and the call returns the numeric position of the appended
card, not a new Header. -/
theorem setValue_appends_to_receiver (st st2 : RegexState) (cards : List Card)
    (keyword : String) (v : FITSCardValue) (index : Int) (c : Card)
    (hk1 : keyword ≠ "SIMPLE") (hk2 : keyword ≠ "CONTINUE") (hk3 : keyword ≠ "BITPIX")
    (hk4 : jsStartsWith keyword "NAXIS" = false)
    (hidx : index ≤ ((cards.enum.filter fun ci => ci.2.keyword = keyword).length : Int))
    (hfv : Card.fromValue st keyword v none = (st2, .ok c)) :
    FITSHeader.setValue st cards keyword (some v) index =
      (st2, .ok (cards ++ [c], (cards.length : Int))) ∧
    cards ++ [c] ≠ cards := by
  constructor
  · unfold FITSHeader.setValue
    rw [if_neg (by simp [hk1, hk2, hk3, hk4])]
    dsimp only
    rw [if_pos hidx, hfv]
    dsimp only
    congr 2
    simp
  · intro hcontra
    have := congrArg List.length hcontra
    simp at this

/-- Witness for the amended C3 theorem on a one-card header. -/
theorem setValue_appends_to_receiver_witness :
    FITSHeader.setValue RegexState.init [fooCard] "FOO" (some (.str "x")) 0 =
      ({ RegexState.init with keywordLI := 3, asciiLI := 1 },
       .ok ([fooCard] ++ [fooXCard], (([fooCard] : List Card).length : Int))) ∧
    [fooCard] ++ [fooXCard] ≠ [fooCard] :=
  setValue_appends_to_receiver RegexState.init
    { RegexState.init with keywordLI := 3, asciiLI := 1 }
    [fooCard] "FOO" (.str "x") 0 fooXCard
    (by decide) (by decide) (by decide) (by decide) (by decide) rfl

/-- Counterexample for C3 as stated: the accepted call
`setValue("FOO", "x", 0)` on a header holding one `FOO` card leaves the
receiver's card list changed — it now holds two cards — and returns the
number `1`, not a new Header. -/
theorem setValue_mutates_receiver :
    (FITSHeader.setValue RegexState.init [fooCard] "FOO" (some (.str "x")) 0).2 =
      .ok ([fooCard, fooXCard], 1) ∧
    [fooCard, fooXCard] ≠ [fooCard] := by
  refine ⟨rfl, by decide⟩

/-! ## Claim theorems about `Card.fromString` (commentary records) -/

/-- C6 (amended): for every 80-character record whose right-trimmed
first-8-character keyword is a commentary keyword (`""`, `HISTORY`,
`COMMENT`, `END`), parsing yields a card whose *value* is the trimmed
remainder of the record as a string (after an optional leading `"= "` for
legacy files) and whose *comment* is null — the spec has the two fields
swapped: the code stores the free text in `value`, not in `comment`, and
never produces an Undefined value for commentary records. -/
theorem fromString_commentary_value_is_text (image : String)
    (h80 : image.length = 80)
    (hkw : COMMENTARY_KEYWORDS.contains (jsTrimEnd (jsTake image KEYWORD_LENGTH)) = true) :
    Card.fromString image true = .ok
      { image := image,
        keyword := jsTrimEnd (jsTake image KEYWORD_LENGTH),
        value := .str (jsTrim
          (if jsStartsWith (jsDrop image KEYWORD_LENGTH) VALUE_INDICATOR then
            jsDrop (jsDrop image KEYWORD_LENGTH) VALUE_INDICATOR.length
          else jsDrop image KEYWORD_LENGTH)),
        comment := none } := by
  have hpad : jsPadEnd image CARD_LENGTH ' ' = image :=
    jsPadEnd_of_le _ _ _ (by simp [CARD_LENGTH, h80])
  rw [Card.fromString.eq_def]
  simp only [reduceIte, hpad, Bool.not_true, Bool.false_and, Bool.false_eq_true, if_false]
  rw [if_pos hkw]

/-- Counterexample for C6 as stated: the record `COMMENT this is a comment`
parses to a card whose value is the *string* `"this is a comment"` and whose
comment is null — not a card with an Undefined value carrying the text in its
comment field, as the claim requires. -/
theorem fromString_commentary_claim_false :
    Card.fromString "COMMENT this is a comment" true = .ok
      { image := jsPadEnd "COMMENT this is a comment" CARD_LENGTH ' ',
        keyword := "COMMENT",
        value := .str "this is a comment",
        comment := none } ∧
    FITSCardValue.str "this is a comment" ≠ .undef ∧
    (none : Option String) ≠ some "this is a comment" := by
  refine ⟨rfl, by decide, by decide⟩

/-- Witness for the amended C6 theorem: the padded `COMMENT` record satisfies
its hypotheses and parses as stated. -/
theorem fromString_commentary_value_is_text_witness :
    Card.fromString (jsPadEnd "COMMENT this is a comment" CARD_LENGTH ' ') true = .ok
      { image := jsPadEnd "COMMENT this is a comment" CARD_LENGTH ' ',
        keyword := jsTrimEnd (jsTake (jsPadEnd "COMMENT this is a comment" CARD_LENGTH ' ') KEYWORD_LENGTH),
        value := .str (jsTrim
          (if jsStartsWith (jsDrop (jsPadEnd "COMMENT this is a comment" CARD_LENGTH ' ') KEYWORD_LENGTH) VALUE_INDICATOR then
            jsDrop (jsDrop (jsPadEnd "COMMENT this is a comment" CARD_LENGTH ' ') KEYWORD_LENGTH) VALUE_INDICATOR.length
          else jsDrop (jsPadEnd "COMMENT this is a comment" CARD_LENGTH ' ') KEYWORD_LENGTH)),
        comment := none } :=
  fromString_commentary_value_is_text _ (by decide) (by decide)

/-- C8 (code bug): `realToString` does not return a string for every finite
double.  For the double `2^69`, whose `toString()` is the 21-character
exponent-free rendering `"590295810358705700000"`, the `split("E")` in
`realToString` produces a single part, `exponent` is `undefined`, and reading
`exponent.length` throws a TypeError.  Moreover, when an exponent is present
the mantissa is cut to `20 - exponent.length` characters, which leaves the
rebuilt string 21 characters long — over the claimed 20-character cap. -/
theorem realToString_crashes_on_long_plain_rendering :
    realToString "590295810358705700000" = .error .realExponentUndefined ∧
    realToString "1.2345678901234567E+21" = .ok "1.234567890123456E+21" ∧
    ("1.234567890123456E+21").length = 21 := by
  refine ⟨rfl, rfl, rfl⟩

end Fits2JS
